import Mathlib

/-!
Verification of the MiniStory AI-director pipeline core: shallow embedding of
the character/location reference resolver, the duplicate-id repair pass, the
location extractor, the outfit-continuity tracker and the regeneration gate,
with theorems settling the specification claims.

Python dicts read with `.get(key, default)` are modelled as structures whose
fields hold the default when the key is missing; in-place mutation of the
script tree is modelled by returning an updated value.
-/

namespace MiniStory

/-- Python `needle in hay` on lowered strings, over lists of characters:
`charsContains n h` is true iff `n` occurs as a contiguous substring of `h`
(the empty list occurs in everything, as in Python). -/
def charsContains : List Char → List Char → Bool
  | n, [] => n.isEmpty
  | n, c :: t => n.isPrefixOf (c :: t) || charsContains n t

/-- Python `needle in hay` for strings. -/
def pyIn (needle hay : String) : Bool :=
  charsContains needle.data hay.data

/-- Python `s.lower()` (ASCII case folding, as every compared string in the
source is ASCII). -/
def pyLower (s : String) : String :=
  ⟨s.data.map Char.toLower⟩

/-- Python `s.startswith(pre)`. -/
def pyStartsWith (s pre : String) : Bool :=
  pre.data.isPrefixOf s.data

/-- Python `s.replace(pat, repl)` on character lists, scanning left to right
and skipping the matched pattern (defined for the non-empty patterns the
source uses; an empty pattern leaves the list unchanged). The `fuel`
argument — always called with the list's length, an upper bound on the
number of scan steps — keeps the recursion structural. -/
def replaceCharsGo (pat repl : List Char) : Nat → List Char → List Char
  | _, [] => []
  | 0, l => l
  | fuel + 1, c :: rest =>
    if pat.isPrefixOf (c :: rest) ∧ pat ≠ [] then
      repl ++ replaceCharsGo pat repl fuel (rest.drop (pat.length - 1))
    else
      c :: replaceCharsGo pat repl fuel rest

/-- Python `s.replace(pat, repl)`. -/
def pyReplace (s pat repl : String) : String :=
  ⟨replaceCharsGo pat.data repl.data s.data.length s.data⟩

/-- Python `s.split(sep)` for a non-empty separator, on character lists:
`cur` is the reversed current segment, `fuel` as in `replaceCharsGo`. -/
def splitCharsGo (sep : List Char) : Nat → List Char → List Char → List (List Char)
  | _, cur, [] => [cur.reverse]
  | 0, cur, l => [cur.reverse ++ l]
  | fuel + 1, cur, c :: rest =>
    if sep.isPrefixOf (c :: rest) ∧ sep ≠ [] then
      cur.reverse :: splitCharsGo sep fuel [] (rest.drop (sep.length - 1))
    else
      splitCharsGo sep fuel (c :: cur) rest

/-- Python `s.split(sep)`. -/
def pySplitOn (s sep : String) : List String :=
  (splitCharsGo sep.data s.data.length [] s.data).map (fun cs => ⟨cs⟩)

/-- Python `s.strip()`: whitespace removed from both ends. -/
def pyStrip (s : String) : String :=
  ⟨(((s.data.dropWhile Char.isWhitespace).reverse.dropWhile Char.isWhitespace).reverse)⟩

/-- Python `s.split()` (no separator): split on whitespace runs, dropping
empty parts; `cur` is the reversed current word. -/
def pySplitWsGo (cur : List Char) : List Char → List (List Char)
  | [] => if cur.isEmpty then [] else [cur.reverse]
  | c :: rest =>
    if c.isWhitespace then
      if cur.isEmpty then pySplitWsGo [] rest
      else cur.reverse :: pySplitWsGo [] rest
    else
      pySplitWsGo (c :: cur) rest

/-- Python `s.split()`. -/
def pySplitWs (s : String) : List String :=
  (pySplitWsGo [] s.data).map (fun cs => ⟨cs⟩)

/-- Python `s[:n]`. -/
def pyTake (s : String) (n : Nat) : String :=
  ⟨s.data.take n⟩

/-- Python `sep.join(parts)`. -/
def pyJoin (sep : String) : List String → String
  | [] => ""
  | [x] => x
  | x :: rest => x ++ sep ++ pyJoin sep rest

/-- A character record as read from `characters.json` / the formatted script
(`src/pipeline_steps.py`, `src/scene_description_generation/attach_character_reference_images.py`).
Missing dict keys are modelled by the `.get` default (`""` / `"unknown"`). -/
structure Character where
  id : String
  name : String
  role : String
  gender : String
  overall_description : String
  image_path : String
  deriving Repr, DecidableEq

/-- The strong reference appended to `shot['focus_character_images']`
(attach_character_reference_images.py lines 84-90). -/
structure CharacterRef where
  character_id : String
  character_name : String
  image_path : String
  overall_description : String
  gender : String
  deriving Repr, DecidableEq

/-- Fields copied out of a character when building a strong reference.
The same five fields are used for the `char_img_by_id` lookup entries
(lines 40-46) and for the appended reference (lines 84-90). -/
def refOfChar (c : Character) : CharacterRef :=
  { character_id := c.id
    character_name := c.name
    image_path := c.image_path
    overall_description := c.overall_description
    gender := c.gender }

/-- Python dict assignment `m[k] = v`: replace in place if the key exists
(keeping its position, as CPython dicts do), else append. -/
def insertAssoc {α : Type} (m : List (String × α)) (k : String) (v : α) :
    List (String × α) :=
  if m.any (fun p => p.1 == k) then
    m.map (fun p => if p.1 == k then (k, v) else p)
  else
    m ++ [(k, v)]

/-- Python dict lookup `m[k]` / `k in m`. -/
def lookupAssoc {α : Type} (m : List (String × α)) (k : String) : Option α :=
  (m.find? (fun p => p.1 == k)).map (fun p => p.2)

/-- Embedding of `char_img_by_id` (attach_character_reference_images.py lines 35-46):
characters with a non-empty id, keyed by id, later entries overwriting
earlier ones with the same id. -/
def char_img_by_id (characters : List Character) : List (String × CharacterRef) :=
  characters.foldl
    (fun m c => if c.id ≠ "" then insertAssoc m c.id (refOfChar c) else m) []

/-- The per-character test of the name loop (lines 70-81): case-insensitive
exact name match, or the reference contained in the name, or the name
starting with the reference. -/
def nameMatches (c : Character) (char_ref : String) : Bool :=
  let char_name := pyLower c.name
  let r := pyLower char_ref
  char_name == r || (pyIn r char_name || pyStartsWith char_name r)

/-- The name loop (lines 70-81): first character in registry order passing
`nameMatches` wins; the exact and containment tests are applied to each
character in turn inside one pass. -/
def findByName (characters : List Character) (char_ref : String) : Option Character :=
  characters.find? (fun c => nameMatches c char_ref)

/-- Resolution of one focus-character reference (lines 61-81): first the id
lookup against `char_img_by_id`, then the single-pass name loop. -/
def resolveCharRef (characters : List Character) (char_ref : String) :
    Option CharacterRef :=
  match lookupAssoc (char_img_by_id characters) char_ref with
  | some r => some r
  | none => (findByName characters char_ref).map refOfChar

/-- A location strong reference as written onto scenes and shots
(attach_location_reference_images.py lines 75-83). -/
structure LocationRef where
  location_id : String
  location_name : String
  location_image_path : String
  environment : String
  lighting : String
  atmosphere : String
  background_sfx : List String
  deriving Repr, DecidableEq

/-- A shot of the formatted script tree: only the fields the attachment
passes read or write. -/
structure Shot where
  shot_id : String
  description : String
  focus_characters : List String
  focus_character_images : List CharacterRef
  location_reference : Option LocationRef
  deriving Repr, DecidableEq

/-- Scene info: the fields the attachment passes read or write. -/
structure SceneInfo where
  scene_id : String
  location : String
  location_reference : Option LocationRef
  deriving Repr, DecidableEq

structure Scene where
  scene_info : SceneInfo
  shots : List Shot
  deriving Repr, DecidableEq

/-- The `formatted_script_data` tree walked by both attachment passes. -/
structure ScriptData where
  scenes : List Scene
  deriving Repr, DecidableEq

/-- Attachment for one shot (lines 54-92): `focus_character_images` is reset
to `[]`, then each focus reference that resolves appends its strong
reference; misses are skipped (warning printed). -/
def attachShot (characters : List Character) (shot : Shot) : Shot :=
  { shot with
    focus_character_images := shot.focus_characters.filterMap (resolveCharRef characters) }

/-- Embedding of `attach_reference_images_to_shots` (lines 30-94): every shot of every
scene gets its attachment; the registry is not modified. -/
def attach_reference_images_to_shots (script : ScriptData)
    (characters : List Character) : ScriptData :=
  { script with
    scenes := script.scenes.map (fun sc => { sc with shots := sc.shots.map (attachShot characters) }) }

/-- Python `f"{n:02d}"`: decimal, zero-padded to two digits. -/
def pad2 (n : Nat) : String :=
  if n < 10 then "0" ++ toString n else toString n

/-- The synthetic id `f"char_{i+1:02d}"` (pipeline_steps.py line 96). -/
def synthCharId (n : Nat) : String := "char_" ++ pad2 n

/-- The loop of `fix_duplicate_character_ids` (pipeline_steps.py lines 88-101):
`seen` is the set of ids already emitted, `i` the 0-based position. -/
def fixDupGo (seen : List String) (i : Nat) : List Character → List Character
  | [] => []
  | c :: rest =>
    if seen.contains c.id then
      let newId := synthCharId (i + 1)
      { c with id := newId } :: fixDupGo (newId :: seen) (i + 1) rest
    else
      c :: fixDupGo (c.id :: seen) (i + 1) rest

/-- Embedding of `fix_duplicate_character_ids` (pipeline_steps.py lines 83-102, identical
copy in app.py lines 339-358). -/
def fix_duplicate_character_ids (characters : List Character) : List Character :=
  fixDupGo [] 0 characters

/-- The resolution algorithm exactly as the specification words it (§4.1,
claim C3): rule 1 (exact id match) over the whole registry, then rule 2
(case-insensitive exact name match) over the whole registry, then rule 3
(containment) over the whole registry, first match of the earliest
applicable rule winning. Stated only for comparison with `resolveCharRef`,
the embedding of the source. -/
def specOrderedResolve (characters : List Character) (reference : String) :
    Option Character :=
  match characters.find? (fun c => c.id == reference) with
  | some c => some c
  | none =>
    match characters.find? (fun c => pyLower c.name == pyLower reference) with
    | some c => some c
    | none =>
      characters.find? (fun c =>
        pyIn (pyLower reference) (pyLower c.name) || pyStartsWith (pyLower c.name) (pyLower reference))

/-! ### Location reference attachment
(src/scene_description_generation/attach_location_reference_images.py) -/

/-- A location record as read from `locations.json` (the fields the
attachment and the extractor produce/consume; `.get` defaults for missing
keys). -/
structure LocationInfo where
  location_id : String
  name : String
  location_type : String
  environment : String
  time_of_day : String
  lighting : String
  atmosphere : String
  background_sfx : List String
  set_details : String
  mood : String
  image_path : String
  deriving Repr, DecidableEq

/-- A `location_lookup` entry (attach_location_reference_images.py
lines 37-45): the seven fields kept for matching and attachment. -/
structure LocationEntry where
  location_id : String
  name : String
  image_path : String
  environment : String
  lighting : String
  atmosphere : String
  background_sfx : List String
  deriving Repr, DecidableEq

def entryOfLocation (loc : LocationInfo) : LocationEntry :=
  { location_id := loc.location_id
    name := loc.name
    image_path := loc.image_path
    environment := loc.environment
    lighting := loc.lighting
    atmosphere := loc.atmosphere
    background_sfx := loc.background_sfx }

/-- Embedding of `location_lookup` (lines 32-45): locations with a non-empty id keyed by
`location_id`, in insertion order. -/
def location_lookup (locations : List LocationInfo) :
    List (String × LocationEntry) :=
  locations.foldl
    (fun m loc =>
      if loc.location_id ≠ "" then insertAssoc m loc.location_id (entryOfLocation loc) else m)
    []

/-- The cleaned scene-location tokens of the fallback match (line 67):
`scene_location.replace('EXT.','').replace('INT.','').split('-')[0].strip()`
then `.split()` (whitespace split dropping empty parts). -/
def locationNameParts (scene_location : String) : List String :=
  let cleaned :=
    pyStrip ((pySplitOn (pyReplace (pyReplace scene_location "EXT." "") "INT." "") "-").headD "")
  (pySplitWs cleaned).filter (fun w => w ≠ "")

/-- Location matching for one scene (lines 54-71): first the name-in-string
pass over the lookup in order, then the token-overlap fallback pass. -/
def matchLocation (lookup : List (String × LocationEntry)) (scene_location : String) :
    Option LocationEntry :=
  match lookup.find? (fun p => pyIn (pyLower p.2.name) (pyLower scene_location)) with
  | some p => some p.2
  | none =>
    (lookup.find? (fun p =>
        (locationNameParts scene_location).any
          (fun part => pyIn (pyLower part) (pyLower p.2.name)))).map (fun p => p.2)

/-- The `location_reference` object written onto the scene and copied onto
each of its shots (lines 75-83). -/
def mkLocationRef (loc : LocationEntry) : LocationRef :=
  { location_id := loc.location_id
    location_name := loc.name
    location_image_path := loc.image_path
    environment := loc.environment
    lighting := loc.lighting
    atmosphere := loc.atmosphere
    background_sfx := loc.background_sfx }

/-- Per-scene location attachment (lines 50-94): when the scene's location
string matches, the reference is written onto `scene_info` and a copy onto
every shot of the scene; otherwise the scene is left untouched (warning
printed). -/
def attachLocScene (lookup : List (String × LocationEntry)) (scene : Scene) : Scene :=
  match matchLocation lookup scene.scene_info.location with
  | some loc =>
    let ref := mkLocationRef loc
    { scene_info := { scene.scene_info with location_reference := some ref }
      shots := scene.shots.map (fun sh => { sh with location_reference := some ref }) }
  | none => scene

/-- Embedding of `attach_location_reference_images_to_scenes` (lines 27-96). -/
def attach_location_reference_images_to_scenes (script : ScriptData)
    (locations : List LocationInfo) : ScriptData :=
  { script with scenes := script.scenes.map (attachLocScene (location_lookup locations)) }

/-! ### Location extraction
(src/location_generation/location_generator.py, LocationGenerator) -/

/-- The scene-info fields read by `extract_locations_from_scenes`
(location_generator.py lines 47-72). `Scene_Tone` is read twice with
different defaults (`''` for atmosphere, `'neutral'` for mood), so it is
kept as an `Option`. -/
structure ExtractSceneInfo where
  scene_id : String
  location : String
  environment : String
  lighting : String
  background_sfx : List String
  scene_tone : Option String
  plot_summary : String
  deriving Repr, DecidableEq

/-- Embedding of `location_id = scene_info.get('Scene_ID','').replace('SC_', 'LOC_')`
(line 50). -/
def locationIdOf (scene_id : String) : String :=
  pyReplace scene_id "SC_" "LOC_"

/-- Embedding of `_extract_location_name` (lines 79-86): part before the first `' - '`,
with `'EXT. '`/`'INT. '` removed and whitespace stripped. -/
def extractLocationName (location : String) : String :=
  pyStrip (pyReplace (pyReplace ((pySplitOn location " - ").headD "") "EXT. " "") "INT. " "")

/-- Embedding of `_create_set_details` (lines 88-104): the non-empty detail fragments
joined by `' | '`; the plot summary is truncated to 100 characters. -/
def createSetDetails (sc : ExtractSceneInfo) : String :=
  let d1 := if sc.environment ≠ "" then ["Environment: " ++ sc.environment] else []
  let d2 := if sc.lighting ≠ "" then ["Lighting: " ++ sc.lighting] else []
  let d3 :=
    if sc.plot_summary ≠ "" then ["Context: " ++ pyTake sc.plot_summary 100 ++ "..."] else []
  pyJoin " | " (d1 ++ d2 ++ d3)

/-- The location record built for one scene (lines 54-72):
`location_type`/`time_of_day` come from splitting the location string on
`' - '`. -/
def locationDataOf (sc : ExtractSceneInfo) : LocationInfo :=
  let location_parts := pySplitOn sc.location " - "
  { location_id := locationIdOf sc.scene_id
    name := extractLocationName sc.location
    location_type := location_parts.headD "UNKNOWN"
    environment := sc.environment
    time_of_day := (location_parts.get? 1).getD "UNKNOWN"
    lighting := sc.lighting
    atmosphere := sc.scene_tone.getD ""
    background_sfx := sc.background_sfx
    set_details := createSetDetails sc
    mood := sc.scene_tone.getD "neutral"
    image_path := "" }

/-- The loop of `extract_locations_from_scenes` (lines 47-76): a location is
created when the scene's location string is non-empty and the scene-derived
`location_id` was not seen before; `seen` is the key set of `location_map`. -/
def extractLocGo (seen : List String) : List ExtractSceneInfo → List LocationInfo
  | [] => []
  | sc :: rest =>
    let lid := locationIdOf sc.scene_id
    if sc.location ≠ "" ∧ ¬ seen.contains lid then
      locationDataOf sc :: extractLocGo (lid :: seen) rest
    else
      extractLocGo seen rest

/-- Embedding of `LocationGenerator.extract_locations_from_scenes` (lines 42-77). -/
def extract_locations_from_scenes (scenes : List ExtractSceneInfo) : List LocationInfo :=
  extractLocGo [] scenes

/-! ### Outfit continuity tracker
(src/outfit_consistency/outfit_tracker.py) -/

/-- Embedding of `CharacterOutfit` (models/pydantic_model.py lines 8-15). -/
structure CharacterOutfit where
  outfit_description : String
  outfit_type : String
  clothing_items : List String
  colors : List String
  accessories : List String
  outfit_context : String
  deriving Repr, DecidableEq

/-- One entry appended to `outfit_history` by `_update_outfit_state`
(outfit_tracker.py lines 172-177). -/
structure OutfitHistoryEntry where
  outfit : String
  scene_id : String
  shot_id : String
  timestamp : Nat
  deriving Repr, DecidableEq

/-- Embedding of `OutfitState` (outfit_tracker.py lines 12-24). -/
structure OutfitState where
  character_id : String
  character_name : String
  current_outfit : String
  outfit_type : String
  clothing_items : List String
  colors : List String
  accessories : List String
  last_scene_id : String
  last_shot_id : String
  outfit_history : List OutfitHistoryEntry
  deriving Repr, DecidableEq

/-- An outfit template of `_generate_initial_outfit` (lines 64-93). -/
structure OutfitTemplate where
  description : String
  otype : String
  items : List String
  colors : List String
  accessories : List String
  deriving Repr, DecidableEq

def outfitTemplateStudent : OutfitTemplate :=
  { description := "Casual college attire - comfortable jeans, casual t-shirt, sneakers"
    otype := "casual"
    items := ["jeans", "casual t-shirt", "sneakers"]
    colors := ["blue", "white"]
    accessories := ["backpack"] }

def outfitTemplateDetective : OutfitTemplate :=
  { description := "Professional detective attire - dark blazer, dress shirt, dress pants, dress shoes"
    otype := "professional"
    items := ["dark blazer", "dress shirt", "dress pants", "dress shoes"]
    colors := ["dark blue", "white"]
    accessories := ["badge", "watch"] }

def outfitTemplateInspector : OutfitTemplate :=
  { description := "Police inspector uniform - crisp police uniform with badges"
    otype := "uniform"
    items := ["police uniform shirt", "police pants", "police shoes", "badge"]
    colors := ["navy blue", "black"]
    accessories := ["badge", "radio", "belt"] }

def outfitTemplateMain : OutfitTemplate :=
  { description := "Smart casual attire - well-fitted clothes reflecting personality"
    otype := "smart_casual"
    items := ["casual shirt", "jeans", "casual shoes"]
    colors := ["varied"]
    accessories := ["watch"] }

/-- Embedding of `_generate_initial_outfit` (lines 56-103): ordered keyword buckets over
the lowered role and description, with the `main` template as fallback. -/
def generateInitialOutfit (c : Character) : OutfitTemplate :=
  let role := pyLower c.role
  let description := pyLower c.overall_description
  if pyIn "student" role || pyIn "college" description then outfitTemplateStudent
  else if pyIn "detective" role then outfitTemplateDetective
  else if pyIn "inspector" role || pyIn "police" description then outfitTemplateInspector
  else outfitTemplateMain

/-- The state created for one character by `initialize_character_outfits`
(lines 33-54). -/
def initializeOutfitState (c : Character) : OutfitState :=
  let t := generateInitialOutfit c
  { character_id := c.id
    character_name := c.name
    current_outfit := t.description
    outfit_type := t.otype
    clothing_items := t.items
    colors := t.colors
    accessories := t.accessories
    last_scene_id := ""
    last_shot_id := ""
    outfit_history := [] }

/-- Embedding of `_update_outfit_state` (lines 166-186), restricted to the per-character
state: the previous outfit is appended to the history (with `timestamp` the
length before the append), then all outfit fields and the scene/shot
pointers are overwritten. The tracker-level `scene_outfit_changes` dict is
not part of the per-character state and is omitted. -/
def updateOutfitState (s : OutfitState) (new_outfit : CharacterOutfit)
    (scene_id shot_id : String) : OutfitState :=
  { s with
    outfit_history := s.outfit_history ++
      [{ outfit := s.current_outfit
         scene_id := s.last_scene_id
         shot_id := s.last_shot_id
         timestamp := s.outfit_history.length }]
    current_outfit := new_outfit.outfit_description
    outfit_type := new_outfit.outfit_type
    clothing_items := new_outfit.clothing_items
    colors := new_outfit.colors
    accessories := new_outfit.accessories
    last_scene_id := scene_id
    last_shot_id := shot_id }

/-- One tracking call touching a given character:
`scene scene_id detailed_outfit` is their entry in
`track_scene_outfits` (lines 105-125, the scene-character's optional
`detailed_outfit`); `shot shot_id has_outfit_description` is their entry in
the populated-`shot_characters` branch of `track_shot_outfits`
(lines 132-145); `shotSynth` is the branch synthesizing shot characters from
the focus list (lines 146-162), which never touches the tracked state. -/
inductive TrackOp where
  | scene (scene_id : String) (detailed_outfit : Option CharacterOutfit)
  | shot (shot_id : String) (has_outfit_description : Bool)
  | shotSynth
  deriving Repr, DecidableEq

/-- Effect of one tracking call on a character's `OutfitState`:
a scene call with a supplied `detailed_outfit` goes through
`_update_outfit_state` with an empty shot id (line 120); a scene call
without one only writes a synthesized outfit onto the scene-character entry
(line 123) and leaves the state unchanged; a shot call only updates
`last_shot_id` (line 145) — whether the shot character already carried an
`outfit_description` affects the shot record, never the state; the
synthesizing branch leaves the state unchanged. -/
def stepOutfit (s : OutfitState) : TrackOp → OutfitState
  | .scene scene_id (some o) => updateOutfitState s o scene_id ""
  | .scene _ none => s
  | .shot shot_id _ => { s with last_shot_id := shot_id }
  | .shotSynth => s

/-- The most recently explicitly supplied outfit description in a sequence
of tracking calls (the last scene call carrying a `detailed_outfit`), if
any. -/
def lastExplicitOutfit : List TrackOp → Option String
  | [] => none
  | op :: rest =>
    match lastExplicitOutfit rest with
    | some d => some d
    | none =>
      match op with
      | .scene _ (some o) => some o.outfit_description
      | _ => none

/-! ### Regeneration gating
(src/app.py scene_creation_step lines 764-778, src/pipeline_steps.py
character_generation_step lines 231-243) -/

/-- The canonical derived path `f"{scene_id}_{shot_id}_scene.png"`
(app.py line 769). -/
def sceneImageFilename (scene_id shot_id : String) : String :=
  scene_id ++ "_" ++ shot_id ++ "_scene.png"

/-- Completed-shot count for one scene (app.py lines 764-772): when the
images directory exists, the number of shots whose canonical file exists;
`fileExists` abstracts `os.path.exists` on file names in that directory. -/
def completedShots (imagesDirExists : Bool) (fileExists : String → Bool)
    (scene_id : String) (shots : List Shot) : Nat :=
  if imagesDirExists then
    (shots.filter (fun sh => fileExists (sceneImageFilename scene_id sh.shot_id))).length
  else 0

/-- Embedding of `scene_completion_status[scene_id]` (app.py lines 774-778). -/
structure SceneCompletionStatus where
  total_shots : Nat
  completed_shots : Nat
  is_complete : Bool
  deriving Repr, DecidableEq

def sceneCompletionStatusOf (imagesDirExists : Bool) (fileExists : String → Bool)
    (scene_id : String) (shots : List Shot) : SceneCompletionStatus :=
  { total_shots := shots.length
    completed_shots := completedShots imagesDirExists fileExists scene_id shots
    is_complete :=
      decide (shots.length ≤ completedShots imagesDirExists fileExists scene_id shots) }

/-- The cached-reuse guard of character_generation_step
(pipeline_steps.py line 234):
`existing_characters and not st.session_state.get("regenerate_characters", False)`. -/
def reuse_cached (existing force_regenerate : Bool) : Bool :=
  existing && !force_regenerate

/-- The regeneration decision: the `else` branch of the guard above — the
generation path is taken exactly when the cached artifact is absent or the
force/regenerate flag is set. -/
def should_regenerate (existing force_regenerate : Bool) : Bool :=
  !(reuse_cached existing force_regenerate)

/-! ## Supporting lemmas -/

/-- Python's `"" in s` is true for every string `s`. -/
lemma charsContains_nil (l : List Char) : charsContains [] l = true := by
  cases l <;> simp [charsContains, List.isPrefixOf]

lemma pyIn_empty (s : String) : pyIn "" s = true := by
  have h : ("" : String).data = [] := rfl
  rw [pyIn, h, charsContains_nil]

/-- The empty reference passes the name-loop test against every character. -/
lemma nameMatches_empty (c : Character) : nameMatches c "" = true := by
  have h : pyLower "" = "" := rfl
  simp [nameMatches, h, pyIn_empty]

lemma insertAssoc_keys {α : Type} (m : List (String × α)) (k : String) (v : α)
    (hm : ∀ p ∈ m, p.1 ≠ "") (hk : k ≠ "") :
    ∀ p ∈ insertAssoc m k v, p.1 ≠ "" := by
  intro p hp
  unfold insertAssoc at hp
  split at hp
  · obtain ⟨q, hq, rfl⟩ := List.mem_map.mp hp
    split
    · exact hk
    · exact hm q hq
  · rcases List.mem_append.mp hp with h | h
    · exact hm p h
    · simp only [List.mem_singleton] at h
      subst h
      exact hk

/-- Every key of `char_img_by_id` is a non-empty id. -/
lemma char_img_by_id_keys (characters : List Character) :
    ∀ p ∈ char_img_by_id characters, p.1 ≠ "" := by
  suffices h : ∀ (cs : List Character) (m : List (String × CharacterRef)),
      (∀ p ∈ m, p.1 ≠ "") →
      ∀ p ∈ cs.foldl
        (fun m c => if c.id ≠ "" then insertAssoc m c.id (refOfChar c) else m) m,
        p.1 ≠ "" by
    exact h characters [] (by simp)
  intro cs
  induction cs with
  | nil => intro m hm; simpa using hm
  | cons c rest ih =>
    intro m hm
    simp only [List.foldl_cons]
    apply ih
    split
    · exact insertAssoc_keys m c.id (refOfChar c) hm (by assumption)
    · exact hm

/-- Lookup of the empty key fails when every key is non-empty. -/
lemma lookupAssoc_empty_key {α : Type} (m : List (String × α))
    (hm : ∀ p ∈ m, p.1 ≠ "") : lookupAssoc m "" = none := by
  unfold lookupAssoc
  rw [List.find?_eq_none.mpr]
  · rfl
  · intro p hp
    simpa using hm p hp

/-- First match wins inside the name loop: a character all of whose
predecessors fail the test is the one found. -/
lemma findByName_first (l1 : List Character) (c : Character) (l2 : List Character)
    (reference : String)
    (hmiss : ∀ c' ∈ l1, nameMatches c' reference = false)
    (hc : nameMatches c reference = true) :
    findByName (l1 ++ c :: l2) reference = some c := by
  induction l1 with
  | nil => simp [findByName, List.find?_cons, hc]
  | cons a l1' ih =>
    have ha : nameMatches a reference = false := hmiss a (by simp)
    have hmiss' : ∀ c' ∈ l1', nameMatches c' reference = false := fun c' h =>
      hmiss c' (by simp [h])
    simpa [findByName, List.find?_cons, ha] using ih hmiss'

/-! ## Claims -/

/-- Claim C1 (code bug): on the input of two characters both carrying id
`"char_02"`, the duplicate-id fix pass returns both with id `"char_02"` —
the synthetic id `char_{i+1:02d}` for position 2 collides with the already
seen id and is not re-checked, so the output ids are not pairwise
distinct. -/
theorem fix_duplicate_ids_leaves_collision :
    (fix_duplicate_character_ids
        [⟨"char_02", "a", "", "", "", ""⟩, ⟨"char_02", "b", "", "", "", ""⟩]).map
        Character.id = ["char_02", "char_02"]
    ∧ ¬ ((fix_duplicate_character_ids
        [⟨"char_02", "a", "", "", "", ""⟩, ⟨"char_02", "b", "", "", "", ""⟩]).map
        Character.id).Nodup := by
  constructor <;> decide

/-- Claim C7: for any two characters both carrying id `"char_01"`, the
duplicate-fix pass leaves the first unchanged and reassigns the second the
position-derived id `"char_02"` (1-indexed, zero-padded to 2 digits). -/
theorem duplicate_char01_second_reassigned (c1 c2 : Character)
    (h1 : c1.id = "char_01") (h2 : c2.id = "char_01") :
    fix_duplicate_character_ids [c1, c2] = [c1, { c2 with id := "char_02" }] := by
  have hsyn : synthCharId 2 = "char_02" := by decide
  simp [fix_duplicate_character_ids, fixDupGo, h1, h2, hsyn]

/-- Witness for C7 at a concrete input. -/
theorem duplicate_char01_second_reassigned_witness :
    fix_duplicate_character_ids
        [⟨"char_01", "a", "", "", "", ""⟩, ⟨"char_01", "b", "", "", "", ""⟩] =
      [⟨"char_01", "a", "", "", "", ""⟩, ⟨"char_02", "b", "", "", "", ""⟩] :=
  duplicate_char01_second_reassigned _ _ rfl rfl

/-- Claim C2 (counterexample): with the non-empty registry `[Arjun]`, the
empty reference string does not resolve to NotFound — it matches `Arjun`
through the containment rule (`"" in name` is always true) and the strong
reference is appended to the shot's `focus_character_images`. -/
theorem empty_reference_resolves_cx :
    resolveCharRef [⟨"char_01", "Arjun", "main", "male", "desc", "img"⟩] "" =
      some (refOfChar ⟨"char_01", "Arjun", "main", "male", "desc", "img"⟩)
    ∧ (attachShot [⟨"char_01", "Arjun", "main", "male", "desc", "img"⟩]
        ⟨"SH1", "d", [""], [], none⟩).focus_character_images ≠ [] := by
  constructor <;> decide

/-- Claim C2 (amended): for every non-empty character registry, the empty
reference string resolves to the first character in registry iteration
order (via the containment rule), and a shot whose focus list is `[""]`
receives exactly that character's strong reference. -/
theorem empty_reference_resolves_to_first (c : Character) (rest : List Character) :
    resolveCharRef (c :: rest) "" = some (refOfChar c)
    ∧ ∀ shot : Shot,
        (attachShot (c :: rest) { shot with focus_characters := [""] }).focus_character_images =
          [refOfChar c] := by
  have hlk : lookupAssoc (char_img_by_id (c :: rest)) "" = none :=
    lookupAssoc_empty_key _ (char_img_by_id_keys (c :: rest))
  have hres : resolveCharRef (c :: rest) "" = some (refOfChar c) := by
    have hfind : findByName (c :: rest) "" = some c := by
      simp [findByName, List.find?_cons, nameMatches_empty]
    simp [resolveCharRef, hlk, hfind]
  refine ⟨hres, fun shot => ?_⟩
  simp [attachShot, List.filterMap, hres]

/-- The current outfit after a fold of tracking calls is the most recently
explicitly supplied one, else the starting one. -/
lemma foldl_current_outfit (ops : List TrackOp) :
    ∀ s : OutfitState, (ops.foldl stepOutfit s).current_outfit =
      (lastExplicitOutfit ops).getD s.current_outfit := by
  induction ops with
  | nil => intro s; simp [lastExplicitOutfit]
  | cons op rest ih =>
    intro s
    simp only [List.foldl_cons]
    rw [ih]
    cases h : lastExplicitOutfit rest with
    | some d => simp [lastExplicitOutfit, h]
    | none =>
      cases op with
      | scene scene_id dout =>
        cases dout with
        | none => simp [lastExplicitOutfit, h, stepOutfit]
        | some o => simp [lastExplicitOutfit, h, stepOutfit, updateOutfitState]
      | shot shot_id hd => simp [lastExplicitOutfit, h, stepOutfit]
      | shotSynth => simp [lastExplicitOutfit, h, stepOutfit]

/-- One tracking call never shrinks the outfit history. -/
lemma stepOutfit_history_le (s : OutfitState) (op : TrackOp) :
    s.outfit_history.length ≤ (stepOutfit s op).outfit_history.length := by
  cases op with
  | scene scene_id dout =>
    cases dout with
    | none => simp [stepOutfit]
    | some o => simp [stepOutfit, updateOutfitState]
  | shot shot_id hd => simp [stepOutfit]
  | shotSynth => simp [stepOutfit]

/-- A fold of tracking calls never shrinks the outfit history. -/
lemma foldl_history_le (ops : List TrackOp) :
    ∀ s : OutfitState,
      s.outfit_history.length ≤ (ops.foldl stepOutfit s).outfit_history.length := by
  induction ops with
  | nil => intro s; simp
  | cons op rest ih =>
    intro s
    simp only [List.foldl_cons]
    exact le_trans (stepOutfit_history_le s op) (ih (stepOutfit s op))

/-- The history timestamps stay `0, 1, 2, …` (each appended entry's
`timestamp` is the length before the append). -/
lemma foldl_history_timestamps (ops : List TrackOp) :
    ∀ s : OutfitState,
      s.outfit_history.map (fun e => e.timestamp) =
        List.range s.outfit_history.length →
      (ops.foldl stepOutfit s).outfit_history.map (fun e => e.timestamp) =
        List.range (ops.foldl stepOutfit s).outfit_history.length := by
  induction ops with
  | nil => intro s h; simpa using h
  | cons op rest ih =>
    intro s h
    simp only [List.foldl_cons]
    apply ih
    cases op with
    | scene scene_id dout =>
      cases dout with
      | none => simpa [stepOutfit] using h
      | some o => simp [stepOutfit, updateOutfitState, List.range_succ, h]
    | shot shot_id hd => simpa [stepOutfit] using h
    | shotSynth => simpa [stepOutfit] using h

lemma extractLocGo_cons_pos (sc : ExtractSceneInfo) (rest : List ExtractSceneInfo)
    (seen : List String)
    (h : sc.location ≠ "" ∧ ¬ seen.contains (locationIdOf sc.scene_id)) :
    extractLocGo seen (sc :: rest) =
      locationDataOf sc :: extractLocGo (locationIdOf sc.scene_id :: seen) rest := by
  simp only [extractLocGo]
  rw [if_pos h]

lemma extractLocGo_cons_neg (sc : ExtractSceneInfo) (rest : List ExtractSceneInfo)
    (seen : List String)
    (h : ¬ (sc.location ≠ "" ∧ ¬ seen.contains (locationIdOf sc.scene_id))) :
    extractLocGo seen (sc :: rest) = extractLocGo seen rest := by
  simp only [extractLocGo]
  rw [if_neg h]

/-- Every location produced by the extraction loop has an id outside the
seen set the loop started from. -/
lemma extractLocGo_not_seen (scenes : List ExtractSceneInfo) :
    ∀ (seen : List String), ∀ l ∈ extractLocGo seen scenes,
      ¬ seen.contains l.location_id := by
  induction scenes with
  | nil => simp [extractLocGo]
  | cons sc rest ih =>
    intro seen l hl
    unfold extractLocGo at hl
    by_cases h : sc.location ≠ "" ∧ ¬ seen.contains (locationIdOf sc.scene_id)
    · rw [if_pos h] at hl
      rcases List.mem_cons.mp hl with rfl | hmem
      · simpa [locationDataOf] using h.2
      · have hmem' := ih (locationIdOf sc.scene_id :: seen) l hmem
        simp only [List.contains_cons, Bool.or_eq_true, not_or] at hmem'
        exact hmem'.2
    · rw [if_neg h] at hl
      exact ih seen l hl

/-- The ids of the extracted locations are pairwise distinct. -/
lemma extractLocGo_nodup (scenes : List ExtractSceneInfo) :
    ∀ seen : List String,
      ((extractLocGo seen scenes).map (fun l => l.location_id)).Nodup := by
  induction scenes with
  | nil => simp [extractLocGo]
  | cons sc rest ih =>
    intro seen
    unfold extractLocGo
    by_cases h : sc.location ≠ "" ∧ ¬ seen.contains (locationIdOf sc.scene_id)
    · rw [if_pos h]
      simp only [List.map_cons, List.nodup_cons]
      constructor
      · intro hmem
        obtain ⟨l, hl, hid⟩ := List.mem_map.mp hmem
        have := extractLocGo_not_seen rest (locationIdOf sc.scene_id :: seen) l hl
        simp only [List.contains_cons, Bool.or_eq_true, not_or] at this
        have hne := this.1
        rw [hid, locationDataOf] at hne
        simp at hne
      · exact ih (locationIdOf sc.scene_id :: seen)
    · rw [if_neg h]
      exact ih seen

/-- Every scene with a non-empty location string either had its id already
in the seen set or contributes a location with that id. -/
lemma extractLocGo_covers (scenes : List ExtractSceneInfo) :
    ∀ (seen : List String), ∀ sc ∈ scenes, sc.location ≠ "" →
      locationIdOf sc.scene_id ∈ seen ∨
      ∃ l ∈ extractLocGo seen scenes, l.location_id = locationIdOf sc.scene_id := by
  induction scenes with
  | nil => simp
  | cons sc0 rest ih =>
    intro seen sc hmem hloc
    by_cases h : sc0.location ≠ "" ∧ ¬ seen.contains (locationIdOf sc0.scene_id)
    · rw [extractLocGo_cons_pos sc0 rest seen h]
      rcases List.mem_cons.mp hmem with rfl | hmem'
      · right
        exact ⟨locationDataOf sc, List.mem_cons_self _ _, rfl⟩
      · rcases ih (locationIdOf sc0.scene_id :: seen) sc hmem' hloc with hin | ⟨l, hl, hid⟩
        · rcases List.mem_cons.mp hin with heq | hin'
          · right
            refine ⟨locationDataOf sc0, List.mem_cons_self _ _, ?_⟩
            simpa [locationDataOf] using heq.symm
          · left; exact hin'
        · right
          exact ⟨l, List.mem_cons_of_mem _ hl, hid⟩
    · rw [extractLocGo_cons_neg sc0 rest seen h]
      rcases List.mem_cons.mp hmem with rfl | hmem'
      · left
        rw [not_and_or, not_not] at h
        rcases h with h' | h'
        · exact absurd hloc (by simpa using h')
        · simpa [List.elem_iff] using h'
      · exact ih seen sc hmem' hloc

/-- Claim C3 (counterexample): on the registry
`[{id:"char_01", name:"Arjuna"}, {id:"char_02", name:"Arjun"}]` and the
reference `"Arjun"`, the source resolver returns `Arjuna` (containment
match found first in its single pass) while the claimed rule ordering
(case-insensitive exact name before containment, each over the whole
registry) would return `Arjun`. -/
theorem resolver_rule_order_cx :
    resolveCharRef
        [⟨"char_01", "Arjuna", "", "", "", ""⟩, ⟨"char_02", "Arjun", "", "", "", ""⟩]
        "Arjun" ≠
      (specOrderedResolve
        [⟨"char_01", "Arjuna", "", "", "", ""⟩, ⟨"char_02", "Arjun", "", "", "", ""⟩]
        "Arjun").map refOfChar := by
  decide

/-- Claim C3 (amended): identity resolution first tries an exact match of the
reference against the id lookup; otherwise it scans the registry once in
iteration order and the first entity whose name matches the reference
case-insensitively exactly, by containment, or as a prefix wins — so
duplicate names (and any later better-matching entity) resolve to the
first-encountered matching entity. -/
theorem resolver_first_match :
    (∀ (characters : List Character) (reference : String) (r : CharacterRef),
        lookupAssoc (char_img_by_id characters) reference = some r →
        resolveCharRef characters reference = some r)
    ∧ (∀ (l1 : List Character) (c : Character) (l2 : List Character) (reference : String),
        lookupAssoc (char_img_by_id (l1 ++ c :: l2)) reference = none →
        (∀ c' ∈ l1, nameMatches c' reference = false) →
        nameMatches c reference = true →
        resolveCharRef (l1 ++ c :: l2) reference = some (refOfChar c)) := by
  constructor
  · intro characters reference r h
    simp [resolveCharRef, h]
  · intro l1 c l2 reference hlk hmiss hc
    simp [resolveCharRef, hlk, findByName_first l1 c l2 reference hmiss hc]

/-- Witness for C3's amended theorem: `"arjun"` matches no id, misses
`"Bob"`, and resolves to the first of the two entities named `"Arjun"`. -/
theorem resolver_first_match_witness :
    resolveCharRef
        [⟨"char_01", "Bob", "", "", "", ""⟩, ⟨"char_02", "Arjun", "", "", "", ""⟩,
          ⟨"char_03", "Arjun", "", "", "", ""⟩] "arjun" =
      some (refOfChar ⟨"char_02", "Arjun", "", "", "", ""⟩) :=
  resolver_first_match.2 [⟨"char_01", "Bob", "", "", "", ""⟩]
    ⟨"char_02", "Arjun", "", "", "", ""⟩ [⟨"char_03", "Arjun", "", "", "", ""⟩]
    "arjun" (by decide) (by decide) (by decide)

/-- Claim C8: a shot none of whose focus-character references resolve ends up
with `focus_character_images = []`, and the attachment function still
returns the whole tree with every shot of every scene independently
attached. -/
theorem unresolved_refs_give_empty (characters : List Character)
    (script : ScriptData) (shot : Shot)
    (h : ∀ r ∈ shot.focus_characters, resolveCharRef characters r = none) :
    (attachShot characters shot).focus_character_images = []
    ∧ (attach_reference_images_to_shots script characters).scenes =
        script.scenes.map
          (fun sc => { sc with shots := sc.shots.map (attachShot characters) }) := by
  constructor
  · simpa [attachShot] using List.filterMap_eq_nil_iff.mpr h
  · rfl

/-- Witness for C8: `"Priya"` is absent from the registry `[Arjun]`, and the
shot's attachment list comes out empty. -/
theorem unresolved_refs_give_empty_witness :
    (attachShot [⟨"char_01", "Arjun", "main", "male", "desc", "img"⟩]
        ⟨"SH1", "d", ["Priya"], [], none⟩).focus_character_images = [] :=
  (unresolved_refs_give_empty
      [⟨"char_01", "Arjun", "main", "male", "desc", "img"⟩] ⟨[]⟩
      ⟨"SH1", "d", ["Priya"], [], none⟩ (by decide)).1

/-- Claim C4: for any sequence of tracking calls applied to one character
after initialization, (1) the outfit history never shrinks across any later
calls, (2) the current outfit always equals the most recently explicitly
supplied outfit — or the role-derived initial one if none was ever
supplied — and (3) the history is ordered by the monotonic sequence
counter `0, 1, 2, …`. -/
theorem outfit_history_monotone_current_explicit (c : Character) (ops : List TrackOp) :
    (∀ l1 l2 : List TrackOp,
        (l1.foldl stepOutfit (initializeOutfitState c)).outfit_history.length ≤
          ((l1 ++ l2).foldl stepOutfit (initializeOutfitState c)).outfit_history.length)
    ∧ (ops.foldl stepOutfit (initializeOutfitState c)).current_outfit =
        (lastExplicitOutfit ops).getD (generateInitialOutfit c).description
    ∧ (ops.foldl stepOutfit (initializeOutfitState c)).outfit_history.map
        (fun e => e.timestamp) =
        List.range (ops.foldl stepOutfit (initializeOutfitState c)).outfit_history.length := by
  refine ⟨fun l1 l2 => ?_, ?_, ?_⟩
  · rw [List.foldl_append]
    exact foldl_history_le l2 _
  · rw [foldl_current_outfit]
    rfl
  · exact foldl_history_timestamps ops (initializeOutfitState c)
      (by simp [initializeOutfitState])

/-- Claim C5: location attachment maps every scene independently, and a scene
whose location string resolves gets the `location_reference` written onto
its scene info and, by value, onto every one of its shots — so any two
sibling shots carry equal references. -/
theorem location_reference_uniform (locations : List LocationInfo) (script : ScriptData) :
    (attach_location_reference_images_to_scenes script locations).scenes =
        script.scenes.map (attachLocScene (location_lookup locations))
    ∧ ∀ (scene : Scene) (loc : LocationEntry),
        matchLocation (location_lookup locations) scene.scene_info.location = some loc →
        (attachLocScene (location_lookup locations) scene).scene_info.location_reference =
            some (mkLocationRef loc)
        ∧ (∀ sh ∈ (attachLocScene (location_lookup locations) scene).shots,
            sh.location_reference = some (mkLocationRef loc))
        ∧ ∀ sh1 ∈ (attachLocScene (location_lookup locations) scene).shots,
            ∀ sh2 ∈ (attachLocScene (location_lookup locations) scene).shots,
              sh1.location_reference = sh2.location_reference := by
  refine ⟨rfl, fun scene loc h => ?_⟩
  have hshots : ∀ sh ∈ (attachLocScene (location_lookup locations) scene).shots,
      sh.location_reference = some (mkLocationRef loc) := by
    intro sh hsh
    simp only [attachLocScene, h] at hsh
    obtain ⟨sh0, _, rfl⟩ := List.mem_map.mp hsh
    rfl
  refine ⟨?_, hshots, fun sh1 h1 sh2 h2 => ?_⟩
  · simp [attachLocScene, h]
  · rw [hshots sh1 h1, hshots sh2 h2]

/-- Witness for C5: the scene location `"EXT. PARK - DAY"` resolves against
the registry `[Park]` and the reference lands on the scene info. -/
theorem location_reference_uniform_witness :
    (attachLocScene
        (location_lookup [⟨"loc_01", "Park", "exterior", "open", "Day", "sunny", "calm",
            ["birds"], "", "calm", "park.png"⟩])
        ⟨⟨"SC_01", "EXT. PARK - DAY", none⟩,
          [⟨"SH_01", "d", [], [], none⟩, ⟨"SH_02", "d", [], [], none⟩]⟩).scene_info.location_reference =
      some (mkLocationRef (entryOfLocation ⟨"loc_01", "Park", "exterior", "open", "Day",
        "sunny", "calm", ["birds"], "", "calm", "park.png"⟩)) :=
  ((location_reference_uniform
      [⟨"loc_01", "Park", "exterior", "open", "Day", "sunny", "calm", ["birds"], "", "calm",
        "park.png"⟩]
      ⟨[]⟩).2
    ⟨⟨"SC_01", "EXT. PARK - DAY", none⟩,
      [⟨"SH_01", "d", [], [], none⟩, ⟨"SH_02", "d", [], [], none⟩]⟩
    (entryOfLocation ⟨"loc_01", "Park", "exterior", "open", "Day", "sunny", "calm", ["birds"],
      "", "calm", "park.png"⟩)
    (by decide)).1

/-- Claim C6: with an existing artifact and no force flag the regeneration
gate answers false and the cached result is reused; with the force flag it
answers true regardless; and a scene all of whose shots have a file at the
canonical derived path counts as fully completed. -/
theorem regeneration_gating :
    should_regenerate true false = false
    ∧ (∀ existing, should_regenerate existing true = true)
    ∧ reuse_cached true false = true
    ∧ ∀ (fileExists : String → Bool) (scene_id : String) (shots : List Shot),
        (∀ sh ∈ shots, fileExists (sceneImageFilename scene_id sh.shot_id) = true) →
        (sceneCompletionStatusOf true fileExists scene_id shots).completed_shots =
            shots.length
        ∧ (sceneCompletionStatusOf true fileExists scene_id shots).is_complete = true := by
  refine ⟨rfl, fun existing => by cases existing <;> rfl, rfl, ?_⟩
  intro fileExists scene_id shots h
  have hall : shots.filter
      (fun sh => fileExists (sceneImageFilename scene_id sh.shot_id)) = shots :=
    List.filter_eq_self.mpr h
  constructor
  · simp [sceneCompletionStatusOf, completedShots, hall]
  · simp [sceneCompletionStatusOf, completedShots, hall]

/-- Witness for C6 (the spec's Scenario E): the file
`SC_01_SH_01_scene.png` exists, so the shot counts as completed and the
scene is complete. -/
theorem regeneration_gating_witness :
    (sceneCompletionStatusOf true (fun s => s == "SC_01_SH_01_scene.png") "SC_01"
        [⟨"SH_01", "d", [], [], none⟩]).completed_shots = 1 :=
  (regeneration_gating.2.2.2 (fun s => s == "SC_01_SH_01_scene.png") "SC_01"
    [⟨"SH_01", "d", [], [], none⟩] (by decide)).1

/-- Claim C9 (counterexample): two scenes with equal location strings
`"EXT. PARK - DAY"` but distinct scene ids produce two Location entities
for the same scene-location string — deduplication is keyed on the
scene-derived `location_id`, not on the location string. -/
theorem extract_locations_duplicate_string_cx :
    (extract_locations_from_scenes
        [⟨"SC_01", "EXT. PARK - DAY", "", "", [], none, ""⟩,
          ⟨"SC_02", "EXT. PARK - DAY", "", "", [], none, ""⟩]).length = 2
    ∧ (⟨"SC_01", "EXT. PARK - DAY", "", "", [], none, ""⟩ : ExtractSceneInfo).location =
        (⟨"SC_02", "EXT. PARK - DAY", "", "", [], none, ""⟩ : ExtractSceneInfo).location
    ∧ (extract_locations_from_scenes
        [⟨"SC_01", "EXT. PARK - DAY", "", "", [], none, ""⟩,
          ⟨"SC_02", "EXT. PARK - DAY", "", "", [], none, ""⟩]).map (fun l => l.name) =
        ["PARK", "PARK"] := by
  refine ⟨by decide, rfl, by decide⟩

/-- Claim C9 (amended): extraction creates exactly one Location entity per
unique scene-derived `location_id` (`Scene_ID` with `SC_` replaced by
`LOC_`): the produced ids are pairwise distinct, and every scene with a
non-empty location string is covered by an entity with its id — scenes
carrying the same location string under different scene ids each get their
own entity. -/
theorem extract_locations_unique_per_scene_id (scenes : List ExtractSceneInfo) :
    ((extract_locations_from_scenes scenes).map (fun l => l.location_id)).Nodup
    ∧ ∀ sc ∈ scenes, sc.location ≠ "" →
        ∃ l ∈ extract_locations_from_scenes scenes,
          l.location_id = locationIdOf sc.scene_id := by
  constructor
  · exact extractLocGo_nodup scenes []
  · intro sc hmem hloc
    rcases extractLocGo_covers scenes [] sc hmem hloc with hin | hex
    · exact absurd hin (List.not_mem_nil _)
    · exact hex

/-- Witness for C9's amended theorem at a concrete scene list. -/
theorem extract_locations_unique_per_scene_id_witness :
    ∃ l ∈ extract_locations_from_scenes
        [⟨"SC_01", "EXT. PARK - DAY", "", "", [], none, ""⟩],
      l.location_id = locationIdOf "SC_01" :=
  (extract_locations_unique_per_scene_id
      [⟨"SC_01", "EXT. PARK - DAY", "", "", [], none, ""⟩]).2
    ⟨"SC_01", "EXT. PARK - DAY", "", "", [], none, ""⟩ (by decide) (by decide)

/-- Claim C10: character-reference attachment is idempotent — each shot's
`focus_character_images` is recomputed from `focus_characters` alone, which
attachment never changes, so a second run on the output is the identity. -/
theorem attach_reference_images_idempotent (script : ScriptData)
    (characters : List Character) :
    attach_reference_images_to_shots
        (attach_reference_images_to_shots script characters) characters =
      attach_reference_images_to_shots script characters := by
  have hshot : ∀ sh : Shot,
      attachShot characters (attachShot characters sh) = attachShot characters sh :=
    fun sh => rfl
  simp [attach_reference_images_to_shots, List.map_map, Function.comp, hshot]

end MiniStory
